import Mathlib

/-!
Verification of the OSINT reconnaissance platform's correlation engine
(`backend/intelligence/correlator.py`) and of the scan orchestrator's
collector dispatch (`backend/main.py`, `execute_scan`), over a shallow
embedding of the data model of `backend/models.py`.

Python integers that only ever hold counts (list lengths, tallies) are
modelled as `Nat`; integers that may be negative (day differences) as
`Int`; Python floats as exact integer fractions.  String-keyed
dictionaries are modelled as association lists in insertion order,
matching Python's ordered dictionaries.
-/

namespace OSINT

set_option maxRecDepth 8192

/-- Python truthiness of an optional string: `None` and `""` are falsy. -/
def truthyStr : Option String → Bool
  | none => false
  | some s => s != ""

/-- Python `a or b` where `a` is an optional string and `b` the fallback:
`None` and the empty string fall through to `b`. -/
def pyOr (a : Option String) (b : String) : String :=
  match a with
  | none => b
  | some s => if s == "" then b else s

/-- Python f-string rendering of an optional string: `None` prints as "None". -/
def pyStr : Option String → String
  | none => "None"
  | some s => s

/-- A Python float arising from integer true division, kept as the exact
(unreduced) fraction `num / den`. -/
structure PyFloat where
  num : Int
  den : Int
deriving Repr, DecidableEq

/-- Python's true division `a / b` of two integers. -/
def pyTrueDiv (a b : Int) : PyFloat := ⟨a, b⟩

/-- True division with its error cases explicit: `ZeroDivisionError` on a
zero divisor, and `OverflowError` when the quotient's magnitude reaches
2^1024, the overflow threshold of the binary64 float the division
produces (rounding at the exact boundary is not modelled). -/
def pyTrueDivE (a b : Int) : Except String PyFloat :=
  if b = 0 then .error "ZeroDivisionError: division by zero"
  else if b.natAbs * 2 ^ 1024 ≤ a.natAbs then
    .error "OverflowError: integer division result too large for a float"
  else .ok (pyTrueDiv a b)

/-- Renders the fraction to one decimal digit (round half up, for positive
denominators), modelling Python's `:.1f` formatting; binary-float rounding
artifacts are not modelled. -/
def fmt1 (x : PyFloat) : String :=
  let t : Int := Int.fdiv (20 * x.num + x.den) (2 * x.den)
  let sign := if t < 0 then "-" else ""
  sign ++ toString (t.natAbs / 10) ++ "." ++ toString (t.natAbs % 10)

/-- `RiskLevel` enumeration of `models.py`. -/
inductive RiskLevel where
  | low
  | medium
  | high
  | critical
deriving Repr, DecidableEq

/-- `ScanType` enumeration of `models.py`. -/
inductive ScanType where
  | domain
  | email
  | username
  | phone
  | full
deriving Repr, DecidableEq

/-- `WHOISData` of `models.py`. -/
structure WHOISData where
  domain : String
  registrar : Option String := none
  creation_date : Option String := none
  expiration_date : Option String := none
  updated_date : Option String := none
  registrant_org : Option String := none
  registrant_country : Option String := none
  name_servers : List String := []
  status : List String := []
  domain_age_days : Option Int := none
deriving Repr, DecidableEq

/-- `DNSRecord` of `models.py`. -/
structure DNSRecord where
  record_type : String
  value : String
  ttl : Option Int := none
deriving Repr, DecidableEq

/-- `DNSData` of `models.py`. -/
structure DNSData where
  domain : String
  a_records : List String := []
  aaaa_records : List String := []
  mx_records : List DNSRecord := []
  txt_records : List String := []
  ns_records : List String := []
  cname_records : List String := []
deriving Repr, DecidableEq

/-- `Subdomain` of `models.py`. -/
structure Subdomain where
  subdomain : String
  source : String := "crt.sh"
  first_seen : Option String := none
deriving Repr, DecidableEq

/-- `DomainIntelligence` of `models.py`. -/
structure DomainIntelligence where
  domain : String
  whois_data : Option WHOISData := none
  dns_data : Option DNSData := none
  subdomains : List Subdomain := []
  subdomain_count : Nat := 0
  ip_addresses : List String := []
  insights : List String := []
deriving Repr, DecidableEq

/-- `Technology` of `models.py`. -/
structure Technology where
  name : String
  category : String
  version : Option String := none
  confidence : String := "high"
  security_note : Option String := none
deriving Repr, DecidableEq

/-- `TechnologyStack` of `models.py`; `security_headers` is an ordered
header-name-to-present map. -/
structure TechnologyStack where
  domain : String
  web_server : Option String := none
  frameworks : List Technology := []
  cdn : Option String := none
  analytics : List String := []
  security_headers : List (String × Bool) := []
  technologies : List Technology := []
  attack_surface_notes : List String := []
deriving Repr, DecidableEq

/-- `GitHubRepository` of `models.py`. -/
structure GitHubRepository where
  name : String
  full_name : String
  url : String
  description : Option String := none
  stars : Nat := 0
  last_updated : Option String := none
  language : Option String := none
deriving Repr, DecidableEq

/-- `GitHubFinding` of `models.py`. -/
structure GitHubFinding where
  repository : String
  file_path : String
  snippet : String
  finding_type : String
  risk_level : RiskLevel
  url : String
deriving Repr, DecidableEq

/-- `GitHubIntelligence` of `models.py`. -/
structure GitHubIntelligence where
  target : String
  repositories : List GitHubRepository := []
  findings : List GitHubFinding := []
  total_repos_found : Nat := 0
  high_risk_findings : Nat := 0
deriving Repr, DecidableEq

/-- `EmailIntelligence` of `models.py`. -/
structure EmailIntelligence where
  email : String
  valid_format : Bool
  mx_records : List String := []
  mx_valid : Bool := false
  disposable : Bool := false
  email_pattern : Option String := none
  breach_found : Bool := false
  breach_count : Nat := 0
  risk_assessment : String := "unknown"
deriving Repr, DecidableEq

/-- `UsernamePlatform` of `models.py`. -/
structure UsernamePlatform where
  platform : String
  url : String
  profile_found : Bool
  last_activity : Option String := none
deriving Repr, DecidableEq

/-- `UsernameIntelligence` of `models.py`. -/
structure UsernameIntelligence where
  username : String
  platforms_found : List UsernamePlatform := []
  total_platforms : Nat := 0
  github_profile : Option String := none
  insights : List String := []
deriving Repr, DecidableEq

/-- `PhoneIntelligence` of `models.py`. -/
structure PhoneIntelligence where
  phone : String
  valid : Bool := false
  format_valid : Bool := false
  international_number : Option String := none
  local_number : Option String := none
  country : Option String := none
  country_code : Option String := none
  country_prefix : Option String := none
  location : Option String := none
  carrier : Option String := none
  line_type : Option String := none
  observations : List String := []
deriving Repr, DecidableEq

/-- `ShodanData` of `models.py`. -/
structure ShodanData where
  ip : String
  ports : List Nat := []
  hostnames : List String := []
  tags : List String := []
  vulnerabilities : List String := []
  os : Option String := none
  isp : Option String := none
  city : Option String := none
  country_name : Option String := none
  last_update : Option String := none
deriving Repr, DecidableEq

/-- `VirusTotalData` of `models.py`. -/
structure VirusTotalData where
  target : String
  reputation : Int := 0
  malicious_count : Nat := 0
  suspicious_count : Nat := 0
  harmless_count : Nat := 0
  total_engines : Nat := 0
  permalink : Option String := none
  categories : List String := []
  last_analysis_date : Option Int := none
deriving Repr, DecidableEq

/-- One entry of `HunterData.emails`.  The source stores these as
string-keyed dictionaries (`Dict[str, Any]`) and reads only the keys
`value` and `position` via `dict.get` with string defaults.  Each key's
slot is tri-state: `none` when the key is absent, `some none` when the
key is present holding Python's `None`, and `some (some s)` when it holds
the string `s` (values of other `Any` types are outside the model). -/
structure HunterEmail where
  value : Option (Option String) := none
  position : Option (Option String) := none
deriving Repr, DecidableEq

/-- Python `dict.get(key, default)` on a tri-state key slot: the default
only replaces an absent key; a present `None` is returned as-is. -/
def pyDictGet (v : Option (Option String)) (dflt : String) : Option String :=
  match v with
  | none => some dflt
  | some v => v

/-- `HunterData` of `models.py`. -/
structure HunterData where
  domain : String
  organization : Option String := none
  country : Option String := none
  state : Option String := none
  emails : List HunterEmail := []
  pattern : Option String := none
  score : Int := 0
deriving Repr, DecidableEq

/-- `SecurityTrailsData` of `models.py`. -/
structure SecurityTrailsData where
  domain : String
  subdomains : List String := []
  subdomain_count : Nat := 0
  history_records : Nat := 0
deriving Repr, DecidableEq

/-- `URLScanData` of `models.py`. -/
structure URLScanData where
  url : String
  result_url : Option String := none
  screenshot_url : Option String := none
  malicious : Bool := false
  score : Int := 0
deriving Repr, DecidableEq

/-- `GreyNoiseData` of `models.py`. -/
structure GreyNoiseData where
  ip : String
  noise : Bool := false
  riot : Bool := false
  classification : Option String := none
  name : Option String := none
  link : Option String := none
  last_seen : Option String := none
deriving Repr, DecidableEq

/-- `AbstractData` of `models.py`; its `Any`-typed dictionary fields are
never read by the correlator and are modelled as string maps. -/
structure AbstractData where
  target : String
  geolocation : Option (List (String × String)) := none
  phone_validation : Option (List (String × String)) := none
  email_validation : Option (List (String × String)) := none
  company_enrichment : Option (List (String × String)) := none
deriving Repr, DecidableEq

/-- `SafeBrowsingData` of `models.py`; the `matches` dictionaries are never
read by the correlator and are modelled as string maps (the field is named
`threat_matches` here because `matches` is reserved in Lean). -/
structure SafeBrowsingData where
  url : String
  threat_matches : List (List (String × String)) := []
  is_safe : Bool := true
deriving Repr, DecidableEq

/-- `GoogleDork` of `models.py`. -/
structure GoogleDork where
  title : String
  link : String
  snippet : Option String := none
  display_link : Option String := none
deriving Repr, DecidableEq

/-- `GoogleDorkingData` of `models.py`. -/
structure GoogleDorkingData where
  target : String
  results : List GoogleDork := []
  total_results : Nat := 0
  dorks_applied : List String := []
deriving Repr, DecidableEq

/-- `AttackSurfaceItem` of `models.py`. -/
structure AttackSurfaceItem where
  item_type : String
  name : String
  risk_level : RiskLevel
  description : String
  source_modules : List String := []
deriving Repr, DecidableEq

/-- `CorrelatedIntelligence` of `models.py`. -/
structure CorrelatedIntelligence where
  target : String
  attack_surface : List AttackSurfaceItem := []
  risk_score : Nat := 0
  risk_level : RiskLevel := .low
  key_findings : List String := []
  recommendations : List String := []
deriving Repr, DecidableEq

/-- Domain block of `calculate_risk_score` (correlator.py lines 40-54). -/
def domainPoints : Option DomainIntelligence → Nat
  | none => 0
  | some d =>
    let agePts :=
      match d.whois_data with
      | none => 0
      | some w =>
        match w.domain_age_days with
        | none => 0
        | some age =>
          -- Python truthiness: a zero age fails the `if ... .domain_age_days:` guard
          if age == 0 then 0
          else if age < 365 then 15
          else if age < 730 then 8
          else 0
    let subPts :=
      if d.subdomain_count > 50 then 15
      else if d.subdomain_count > 20 then 10
      else if d.subdomain_count > 10 then 5
      else 0
    agePts + subPts

/-- Number of absent security headers (`missing_headers` of correlator.py). -/
def missingHeaderCount (ts : TechnologyStack) : Nat :=
  (ts.security_headers.filter (fun hp => !hp.2)).length

/-- Number of technologies with a truthy version string (`versioned_techs`). -/
def versionedTechCount (ts : TechnologyStack) : Nat :=
  (ts.technologies.filter (fun t => truthyStr t.version)).length

/-- Technology-stack block of `calculate_risk_score` (lines 57-68). -/
def techPoints : Option TechnologyStack → Nat
  | none => 0
  | some ts =>
    min (missingHeaderCount ts * 3) 12
      + min (versionedTechCount ts * 2) 8
      + (if truthyStr ts.cdn then 0 else 5)

/-- GitHub block of `calculate_risk_score` (lines 71-81). -/
def githubPoints : Option GitHubIntelligence → Nat
  | none => 0
  | some g =>
    min (g.high_risk_findings * 10) 20
      + (if g.findings.length > 0 then 5 else 0)
      + (if g.total_repos_found > 5 then 5 else 0)

/-- Email block of `calculate_risk_score` (lines 84-91). -/
def emailPoints : Option EmailIntelligence → Nat
  | none => 0
  | some e =>
    (if e.risk_assessment == "high" then 10
     else if e.risk_assessment == "medium" then 5
     else 0)
      + (if e.breach_found then 5 else 0)

/-- Username block of `calculate_risk_score` (lines 94-98). -/
def usernamePoints : Option UsernameIntelligence → Nat
  | none => 0
  | some u =>
    (if u.total_platforms > 5 then 3 else 0)
      + (if truthyStr u.github_profile then 2 else 0)

/-- Shodan block of `calculate_risk_score` (lines 101-105). -/
def shodanPoints : Option ShodanData → Nat
  | none => 0
  | some s => min (s.ports.length * 2) 10 + s.vulnerabilities.length * 5

/-- VirusTotal block of `calculate_risk_score` (lines 108-112). -/
def virustotalPoints : Option VirusTotalData → Nat
  | none => 0
  | some v =>
    if v.malicious_count > 0 then 20
    else if v.suspicious_count > 0 then 10
    else 0

/-- Safe Browsing block of `calculate_risk_score` (lines 115-116). -/
def safebrowsingPoints : Option SafeBrowsingData → Nat
  | none => 0
  | some s => if s.is_safe then 0 else 30

/-- GreyNoise block of `calculate_risk_score` (lines 119-122): the taken
branch is a `pass`, so it contributes nothing either way. -/
def greynoisePoints : Option GreyNoiseData → Nat
  | none => 0
  | some g => if g.noise then 0 else 0

/-- Hunter block of `calculate_risk_score` (lines 125-126). -/
def hunterPoints : Option HunterData → Nat
  | none => 0
  | some h => min h.emails.length 10

/-- Google-dorking block of `calculate_risk_score` (lines 129-130). -/
def dorkingPoints : Option GoogleDorkingData → Nat
  | none => 0
  | some g => if g.total_results > 0 then min (g.total_results * 5) 20 else 0

/-- Phone block of `calculate_risk_score` (lines 133-137). -/
def phonePoints : Option PhoneIntelligence → Nat
  | none => 0
  | some p =>
    (if p.valid then 0 else 5)
      + (if p.line_type == some "voip" then 3 else 0)

/-- Threshold table deriving the risk level from the clamped score
(correlator.py lines 143-150). -/
def riskLevelOfScore (s : Nat) : RiskLevel :=
  if s ≥ 70 then .critical
  else if s ≥ 50 then .high
  else if s ≥ 30 then .medium
  else .low

/-- `calculate_risk_score` of correlator.py: per-fragment contributions are
accumulated, clamped to at most 100, and classified. -/
def calculate_risk_score
    (domain_intel : Option DomainIntelligence)
    (tech_stack : Option TechnologyStack)
    (github_intel : Option GitHubIntelligence)
    (email_intel : Option EmailIntelligence)
    (username_intel : Option UsernameIntelligence)
    (shodan_data : Option ShodanData)
    (virustotal_data : Option VirusTotalData)
    (hunter_data : Option HunterData)
    (securitytrails_data : Option SecurityTrailsData)
    (urlscan_data : Option URLScanData)
    (greynoise_data : Option GreyNoiseData)
    (safebrowsing_data : Option SafeBrowsingData)
    (google_dorking_data : Option GoogleDorkingData)
    (phone_intel : Option PhoneIntelligence) :
    Nat × RiskLevel :=
  let raw :=
    domainPoints domain_intel + techPoints tech_stack + githubPoints github_intel
      + emailPoints email_intel + usernamePoints username_intel
      + shodanPoints shodan_data + virustotalPoints virustotal_data
      + safebrowsingPoints safebrowsing_data + greynoisePoints greynoise_data
      + hunterPoints hunter_data + dorkingPoints google_dorking_data
      + phonePoints phone_intel
  let risk_score := min raw 100
  (risk_score, riskLevelOfScore risk_score)

/-- Whether a lowered security note contains the substring "exposed"
(Python `"exposed" in ...lower()`). -/
def containsExposed (s : String) : Bool :=
  (s.toLower.splitOn "exposed").length > 1

/-- Subdomain projection of `build_attack_surface` (lines 172-180). -/
def domainSurfaceItems : Option DomainIntelligence → List AttackSurfaceItem
  | none => []
  | some d =>
    (d.subdomains.take 20).map (fun sub =>
      { item_type := "subdomain"
        name := sub.subdomain
        risk_level := .medium
        description := "Subdomain discovered via " ++ sub.source
        source_modules := ["domain_intel"] })

/-- Technology and missing-security-header projections of
`build_attack_surface` (lines 183-205). -/
def techSurfaceItems : Option TechnologyStack → List AttackSurfaceItem
  | none => []
  | some ts =>
    (ts.technologies.filterMap (fun t =>
      match t.security_note with
      | none => none
      | some note =>
        -- Python truthiness: an empty note fails the `if tech.security_note:` guard
        if note == "" then none
        else some
          { item_type := "technology"
            name := t.name
            risk_level := if containsExposed note then .medium else .low
            description := pyOr t.security_note (t.category ++ " detected")
            source_modules := ["tech_fingerprint"] }))
    ++ ts.security_headers.filterMap (fun hp =>
      if hp.2 then none
      else some
        { item_type := "security_header"
          name := "Missing " ++ hp.1
          risk_level := .medium
          description := "Security header '" ++ hp.1 ++ "' not implemented"
          source_modules := ["tech_fingerprint"] })

/-- GitHub-finding projection of `build_attack_surface` (lines 208-216). -/
def githubSurfaceItems : Option GitHubIntelligence → List AttackSurfaceItem
  | none => []
  | some g =>
    (g.findings.take 15).map (fun f =>
      { item_type := "exposed_file"
        name := f.file_path
        risk_level := f.risk_level
        description := f.finding_type.toUpper ++ " found in " ++ f.repository
        source_modules := ["github_intel"] })

/-- Open-port and vulnerability projections of `build_attack_surface`
(lines 219-235). -/
def shodanSurfaceItems : Option ShodanData → List AttackSurfaceItem
  | none => []
  | some s =>
    s.ports.map (fun port =>
      { item_type := "open_port"
        name := "Port " ++ toString port
        risk_level := if port == 80 || port == 443 then .medium else .high
        description := "Open port " ++ toString port ++ " detected on " ++ s.ip
        source_modules := ["shodan"] })
    ++ s.vulnerabilities.map (fun vuln =>
      { item_type := "vulnerability"
        name := vuln
        risk_level := .critical
        description := "Vulnerability " ++ vuln ++ " detected"
        source_modules := ["shodan"] })

/-- The item one hunter email entry projects (lines 239-246).  When the
`value` key is present holding `None`, the source raises a pydantic
`ValidationError` at `AttackSurfaceItem(name=None)` (see `hunterItemE`);
this total twin renders that unreachable-on-success case as the f-string
rendering "None", a value the theorems never rely on. -/
def hunterItem (e : HunterEmail) : AttackSurfaceItem :=
  { item_type := "employee_email"
    name := pyStr (pyDictGet e.value "Email")
    risk_level := .low
    description := "Corporate email found: " ++ pyStr (pyDictGet e.position "Employee")
    source_modules := ["hunter"] }

/-- The item one hunter email entry projects, with the pydantic validation
of the `name: str` field explicit: a `None` value for the `name` argument
raises; the `position` value is only interpolated into an f-string, where
`None` renders as "None" without error. -/
def hunterItemE (e : HunterEmail) : Except String AttackSurfaceItem :=
  match pyDictGet e.value "Email" with
  | none => .error "ValidationError: none is not an allowed value for AttackSurfaceItem.name"
  | some name =>
    .ok
      { item_type := "employee_email"
        name := name
        risk_level := .low
        description := "Corporate email found: " ++ pyStr (pyDictGet e.position "Employee")
        source_modules := ["hunter"] }

/-- Corporate-email projection of `build_attack_surface` (lines 238-246). -/
def hunterSurfaceItems : Option HunterData → List AttackSurfaceItem
  | none => []
  | some h => (h.emails.take 5).map hunterItem

/-- Sequential projection of hunter entries, stopping at the first entry
whose item construction raises, as the source loop does. -/
def hunterItemsE : List HunterEmail → Except String (List AttackSurfaceItem)
  | [] => pure []
  | e :: es => do
    let i ← hunterItemE e
    let rest ← hunterItemsE es
    pure (i :: rest)

/-- Corporate-email projection with the pydantic validation explicit. -/
def hunterSurfaceItemsE : Option HunterData → Except String (List AttackSurfaceItem)
  | none => pure []
  | some h => hunterItemsE (h.emails.take 5)

/-- Google-dorking projection of `build_attack_surface` (lines 249-257). -/
def dorkingSurfaceItems : Option GoogleDorkingData → List AttackSurfaceItem
  | none => []
  | some g =>
    (g.results.take 10).map (fun r =>
      { item_type := "exposed_page"
        name := r.title
        risk_level := .medium
        description := "Potential sensitive page/file found via Google Dorking"
        source_modules := ["google_dorking"] })

/-- The attack-surface item a valid phone fragment projects (lines 261-267). -/
def phoneAttackItem (p : PhoneIntelligence) : AttackSurfaceItem :=
  { item_type := "phone_number"
    name := pyOr p.international_number p.phone
    risk_level := .low
    description := "Valid " ++ pyStr p.line_type ++ " number found in "
      ++ pyStr p.country ++ ". Carrier: " ++ pyStr p.carrier
    source_modules := ["phone_intel"] }

/-- Phone projection of `build_attack_surface` (lines 260-267). -/
def phoneSurfaceItems : Option PhoneIntelligence → List AttackSurfaceItem
  | none => []
  | some p => if p.valid then [phoneAttackItem p] else []

/-- The sort key `risk_order` of `build_attack_surface` (critical first). -/
def riskOrder : RiskLevel → Nat
  | .critical => 0
  | .high => 1
  | .medium => 2
  | .low => 3

/-- Comparison used by the final in-place stable sort of
`build_attack_surface` (`attack_surface.sort(key=...)`). -/
def riskLE (a b : AttackSurfaceItem) : Prop :=
  riskOrder a.risk_level ≤ riskOrder b.risk_level

instance : DecidableRel riskLE := fun a b => Nat.decLe _ _

instance : IsTotal AttackSurfaceItem riskLE := ⟨fun a b => Nat.le_total _ _⟩

instance : IsTrans AttackSurfaceItem riskLE := ⟨fun _ _ _ h h2 => Nat.le_trans h h2⟩

/-- The unsorted attack-surface list in the order the fragments project
items (correlator.py lines 169-267, before the final sort). -/
def attackSurfaceProjections
    (domain_intel : Option DomainIntelligence)
    (tech_stack : Option TechnologyStack)
    (github_intel : Option GitHubIntelligence)
    (shodan_data : Option ShodanData)
    (hunter_data : Option HunterData)
    (google_dorking_data : Option GoogleDorkingData)
    (phone_intel : Option PhoneIntelligence) : List AttackSurfaceItem :=
  domainSurfaceItems domain_intel ++ techSurfaceItems tech_stack
    ++ githubSurfaceItems github_intel ++ shodanSurfaceItems shodan_data
    ++ hunterSurfaceItems hunter_data ++ dorkingSurfaceItems google_dorking_data
    ++ phoneSurfaceItems phone_intel

/-- `build_attack_surface` of correlator.py: the projections, stably sorted
by the `risk_order` key (Python's `list.sort` is stable; so is
`List.insertionSort`). -/
def build_attack_surface
    (domain_intel : Option DomainIntelligence)
    (tech_stack : Option TechnologyStack)
    (github_intel : Option GitHubIntelligence)
    (shodan_data : Option ShodanData)
    (virustotal_data : Option VirusTotalData)
    (hunter_data : Option HunterData)
    (google_dorking_data : Option GoogleDorkingData)
    (phone_intel : Option PhoneIntelligence) : List AttackSurfaceItem :=
  List.insertionSort riskLE
    (attackSurfaceProjections domain_intel tech_stack github_intel shodan_data
      hunter_data google_dorking_data phone_intel)

/-- `build_attack_surface` with the pydantic validation of the hunter
projection explicit; the other projections perform no fallible operation. -/
def build_attack_surfaceE
    (domain_intel : Option DomainIntelligence)
    (tech_stack : Option TechnologyStack)
    (github_intel : Option GitHubIntelligence)
    (shodan_data : Option ShodanData)
    (virustotal_data : Option VirusTotalData)
    (hunter_data : Option HunterData)
    (google_dorking_data : Option GoogleDorkingData)
    (phone_intel : Option PhoneIntelligence) :
    Except String (List AttackSurfaceItem) := do
  let hunterItems ← hunterSurfaceItemsE hunter_data
  pure
    (List.insertionSort riskLE
      (domainSurfaceItems domain_intel ++ techSurfaceItems tech_stack
        ++ githubSurfaceItems github_intel ++ shodanSurfaceItems shodan_data
        ++ hunterItems ++ dorkingSurfaceItems google_dorking_data
        ++ phoneSurfaceItems phone_intel))

/-- A present domain-age value keeps its division inside float range:
either it is zero (the source's truthiness guard skips it) or its
magnitude stays below 365 times the binary64 overflow threshold. -/
def ageDivisionSafeW : Option WHOISData → Bool
  | none => true
  | some w =>
    match w.domain_age_days with
    | none => true
    | some age => age == 0 || decide (age.natAbs < 365 * 2 ^ 1024)

/-- `ageDivisionSafeW` lifted to the domain fragment. -/
def ageDivisionSafe : Option DomainIntelligence → Bool
  | none => true
  | some d => ageDivisionSafeW d.whois_data

/-- A hunter email entry whose `value` key is not a present `None`, so the
projected item's `name` field passes pydantic validation. -/
def hunterEmailNameSafe (e : HunterEmail) : Bool := e.value != some none

/-- Every hunter email entry the source projects (the first five) has a
validating `value` key. -/
def hunterValuesSafe : Option HunterData → Bool
  | none => true
  | some h => (h.emails.take 5).all hunterEmailNameSafe

/-- Domain-age line of `generate_key_findings` (lines 300-303). -/
def ageLine (w : Option WHOISData) : List String :=
  match w with
  | none => []
  | some wd =>
    match wd.domain_age_days with
    | none => []
    | some age =>
      -- Python truthiness: a zero age fails the `if ... .domain_age_days:` guard
      if age == 0 then []
      else ["📅 Domain age: " ++ fmt1 (pyTrueDiv age 365) ++ " years"]

/-- `ageLine` with the division's `ZeroDivisionError` case explicit. -/
def ageLineE (w : Option WHOISData) : Except String (List String) :=
  match w with
  | none => pure []
  | some wd =>
    match wd.domain_age_days with
    | none => pure []
    | some age =>
      if age == 0 then pure []
      else do
        let y ← pyTrueDivE age 365
        pure ["📅 Domain age: " ++ fmt1 y ++ " years"]

/-- Domain block of `generate_key_findings` (lines 296-303). -/
def domainFindings : Option DomainIntelligence → List String
  | none => []
  | some d =>
    (if d.subdomain_count > 0 then
      ["🔍 Discovered " ++ toString d.subdomain_count
        ++ " subdomains via Certificate Transparency"]
     else [])
    ++ ageLine d.whois_data

/-- `domainFindings` with the division's failure case explicit. -/
def domainFindingsE : Option DomainIntelligence → Except String (List String)
  | none => pure []
  | some d => do
    let ageLines ← ageLineE d.whois_data
    pure
      ((if d.subdomain_count > 0 then
        ["🔍 Discovered " ++ toString d.subdomain_count
          ++ " subdomains via Certificate Transparency"]
       else [])
      ++ ageLines)

/-- Technology block of `generate_key_findings` (lines 306-312). -/
def techFindings : Option TechnologyStack → List String
  | none => []
  | some ts =>
    ["⚙️ Identified " ++ toString ts.technologies.length ++ " technologies"]
    ++ (if missingHeaderCount ts > 0 then
          ["⚠️ " ++ toString (missingHeaderCount ts) ++ " security headers missing"]
        else [])

/-- GitHub block of `generate_key_findings` (lines 315-320). -/
def githubFindings : Option GitHubIntelligence → List String
  | none => []
  | some g =>
    (if g.high_risk_findings > 0 then
      ["🚨 " ++ toString g.high_risk_findings
        ++ " high-risk findings in public GitHub repositories"]
     else [])
    ++ (if g.total_repos_found > 0 then
      ["📦 " ++ toString g.total_repos_found
        ++ " public repositories reference this target"]
     else [])

/-- Email block of `generate_key_findings` (lines 323-327). -/
def emailFindings : Option EmailIntelligence → List String
  | none => []
  | some e =>
    if e.valid_format then
      if e.breach_found then
        ["⚠️ Email found in " ++ toString e.breach_count ++ " data breaches"]
      else ["✅ Email not found in known breaches"]
    else []

/-- Username block of `generate_key_findings` (lines 330-332). -/
def usernameFindings : Option UsernameIntelligence → List String
  | none => []
  | some u =>
    if u.total_platforms > 0 then
      ["👤 Username found on " ++ toString u.total_platforms ++ " platforms"]
    else []

/-- The finding lines a valid phone fragment contributes (lines 335-338). -/
def phoneFindingLines (p : PhoneIntelligence) : List String :=
  ["📱 Valid " ++ pyOr p.line_type "phone" ++ " number: "
    ++ pyOr p.international_number p.phone]
  ++ (if truthyStr p.carrier then ["📶 Carrier: " ++ pyStr p.carrier] else [])

/-- Phone block of `generate_key_findings` (lines 335-338). -/
def phoneFindings : Option PhoneIntelligence → List String
  | none => []
  | some p => if p.valid then phoneFindingLines p else []

/-- `generate_key_findings` of correlator.py. -/
def generate_key_findings
    (domain_intel : Option DomainIntelligence)
    (tech_stack : Option TechnologyStack)
    (github_intel : Option GitHubIntelligence)
    (email_intel : Option EmailIntelligence)
    (username_intel : Option UsernameIntelligence)
    (phone_intel : Option PhoneIntelligence) : List String :=
  domainFindings domain_intel ++ techFindings tech_stack
    ++ githubFindings github_intel ++ emailFindings email_intel
    ++ usernameFindings username_intel ++ phoneFindings phone_intel

/-- `generate_key_findings` with the failure case explicit. -/
def generate_key_findingsE
    (domain_intel : Option DomainIntelligence)
    (tech_stack : Option TechnologyStack)
    (github_intel : Option GitHubIntelligence)
    (email_intel : Option EmailIntelligence)
    (username_intel : Option UsernameIntelligence)
    (phone_intel : Option PhoneIntelligence) : Except String (List String) := do
  let domainLines ← domainFindingsE domain_intel
  pure
    (domainLines ++ techFindings tech_stack
      ++ githubFindings github_intel ++ emailFindings email_intel
      ++ usernameFindings username_intel ++ phoneFindings phone_intel)

/-- The two unconditional best-practice recommendation lines
(correlator.py lines 381-382). -/
def bestPracticeLines : List String :=
  ["📊 Regular OSINT audits recommended (quarterly)",
   "🔍 Implement continuous monitoring for new exposures"]

/-- `generate_recommendations` of correlator.py. -/
def generate_recommendations
    (attack_surface : List AttackSurfaceItem)
    (risk_level : RiskLevel) : List String :=
  (if risk_level == .high || risk_level == .critical then
    ["🎯 PRIORITY: Immediate security review required",
     "→ Review all high-risk findings and remediate critical exposures"]
   else [])
  ++ (if attack_surface.any (fun i => i.item_type == "exposed_file") then
    ["📋 Review public GitHub repositories for sensitive data exposure",
     "→ Remove or rotate any exposed credentials immediately",
     "→ Implement pre-commit hooks to prevent future leaks"]
   else [])
  ++ (if attack_surface.any (fun i => i.item_type == "security_header") then
    ["🔒 Implement missing security headers:",
     "   - Content-Security-Policy (CSP)",
     "   - X-Frame-Options (clickjacking protection)",
     "   - Strict-Transport-Security (HSTS)"]
   else [])
  ++ (if attack_surface.any (fun i => i.item_type == "subdomain") then
    ["🌐 Large subdomain attack surface detected:",
     "→ Audit all subdomains for necessity",
     "→ Decommission unused subdomains",
     "→ Ensure all subdomains have same security posture as main domain"]
   else [])
  ++ bestPracticeLines

/-- `correlate_intelligence` of correlator.py: the four-stage pipeline. -/
def correlate_intelligence
    (target : String)
    (domain_intel : Option DomainIntelligence)
    (tech_stack : Option TechnologyStack)
    (github_intel : Option GitHubIntelligence)
    (email_intel : Option EmailIntelligence)
    (username_intel : Option UsernameIntelligence)
    (shodan_data : Option ShodanData)
    (virustotal_data : Option VirusTotalData)
    (hunter_data : Option HunterData)
    (securitytrails_data : Option SecurityTrailsData)
    (urlscan_data : Option URLScanData)
    (greynoise_data : Option GreyNoiseData)
    (safebrowsing_data : Option SafeBrowsingData)
    (abstract_data : Option AbstractData)
    (google_dorking_data : Option GoogleDorkingData)
    (phone_intel : Option PhoneIntelligence) : CorrelatedIntelligence :=
  let scoreLevel :=
    calculate_risk_score domain_intel tech_stack github_intel email_intel
      username_intel shodan_data virustotal_data hunter_data
      securitytrails_data urlscan_data greynoise_data safebrowsing_data
      google_dorking_data phone_intel
  let attack_surface :=
    build_attack_surface domain_intel tech_stack github_intel shodan_data
      virustotal_data hunter_data google_dorking_data phone_intel
  let key_findings :=
    generate_key_findings domain_intel tech_stack github_intel email_intel
      username_intel phone_intel
  let recommendations := generate_recommendations attack_surface scoreLevel.2
  { target := target
    attack_surface := attack_surface
    risk_score := scoreLevel.1
    risk_level := scoreLevel.2
    key_findings := key_findings
    recommendations := recommendations }

/-- `correlate_intelligence` with every Python operation that can raise
(the integer division inside the findings stage) threaded through
`Except`; an `error` value models an uncaught exception. -/
def correlate_intelligenceE
    (target : String)
    (domain_intel : Option DomainIntelligence)
    (tech_stack : Option TechnologyStack)
    (github_intel : Option GitHubIntelligence)
    (email_intel : Option EmailIntelligence)
    (username_intel : Option UsernameIntelligence)
    (shodan_data : Option ShodanData)
    (virustotal_data : Option VirusTotalData)
    (hunter_data : Option HunterData)
    (securitytrails_data : Option SecurityTrailsData)
    (urlscan_data : Option URLScanData)
    (greynoise_data : Option GreyNoiseData)
    (safebrowsing_data : Option SafeBrowsingData)
    (abstract_data : Option AbstractData)
    (google_dorking_data : Option GoogleDorkingData)
    (phone_intel : Option PhoneIntelligence) :
    Except String CorrelatedIntelligence := do
  let scoreLevel :=
    calculate_risk_score domain_intel tech_stack github_intel email_intel
      username_intel shodan_data virustotal_data hunter_data
      securitytrails_data urlscan_data greynoise_data safebrowsing_data
      google_dorking_data phone_intel
  let attack_surface ←
    build_attack_surfaceE domain_intel tech_stack github_intel shodan_data
      virustotal_data hunter_data google_dorking_data phone_intel
  let key_findings ←
    generate_key_findingsE domain_intel tech_stack github_intel email_intel
      username_intel phone_intel
  let recommendations := generate_recommendations attack_surface scoreLevel.2
  pure
    { target := target
      attack_surface := attack_surface
      risk_score := scoreLevel.1
      risk_level := scoreLevel.2
      key_findings := key_findings
      recommendations := recommendations }

/-- Python `str.split(sep)` for a one-character separator: every occurrence
splits, adjacent separators yield empty parts. -/
def splitChar (c : Char) : List Char → List (List Char)
  | [] => [[]]
  | x :: xs =>
    if x = c then [] :: splitChar c xs
    else
      match splitChar c xs with
      | [] => [[x]]
      | h :: t => (x :: h) :: t

/-- The `target.split('@')[1]` of the email branch of `execute_scan`
(main.py line 216); `none` models the `IndexError` when no `@` occurs. -/
def mailDomain (target : String) : Option String :=
  ((splitChar '@' target.toList).get? 1).map (fun l => String.mk l)

/-- One collector invocation settles with a fragment (`ok`) or raises an
exception or timeout (`error`); the environment fixes the outcome of each
collector on each input. -/
structure CollectorEnv where
  domainIntel : String → Bool → Except String DomainIntelligence
  techStack : String → Except String TechnologyStack
  githubIntel : String → Bool → Except String GitHubIntelligence
  emailIntel : String → Except String EmailIntelligence
  usernameIntel : String → Except String UsernameIntelligence

/-- The fields of the cached `ScanResult` record that `execute_scan`
mutates (models.py `ScanResult`, main.py lines 180-296). -/
structure ScanRecordM where
  scan_id : String
  target : String
  scan_type : ScanType
  status : String
  domain_intel : Option DomainIntelligence := none
  tech_stack : Option TechnologyStack := none
  github_intel : Option GitHubIntelligence := none
  email_intel : Option EmailIntelligence := none
  username_intel : Option UsernameIntelligence := none
  correlated_intel : Option CorrelatedIntelligence := none
  modules_executed : List String := []
deriving Repr, DecidableEq

/-- Everything observable about one `execute_scan` run: the cached record,
the collector invocations made (name and argument), and the status and
module list offered to the persistence layer (`update_scan_completion`). -/
structure ScanOutcome where
  record : ScanRecordM
  invoked : List (String × String)
  dbModules : List String
  dbStatus : String
deriving Repr, DecidableEq

/-- The `except`-branch of `execute_scan` (main.py lines 273-296): the
cached record keeps the fragments assigned so far, its status becomes
"failed", and its `modules_executed` field keeps its initial empty value
because the assignment at line 255 is never reached; the local module list
goes only to the persistence call. -/
def failOutcome (rec : ScanRecordM) (invoked : List (String × String))
    (mods : List String) : ScanOutcome :=
  { record := { rec with status := "failed" }
    invoked := invoked
    dbModules := mods
    dbStatus := "failed" }

/-- The success tail of `execute_scan` (main.py lines 242-271): correlation
over the accumulated fragments, then the record is completed. -/
def completeOutcome (rec : ScanRecordM) (invoked : List (String × String))
    (mods : List String) : ScanOutcome :=
  let correlated :=
    correlate_intelligence rec.target rec.domain_intel rec.tech_stack
      rec.github_intel rec.email_intel rec.username_intel
      none none none none none none none none none none
  { record :=
      { rec with
        status := "completed"
        correlated_intel := some correlated
        modules_executed := mods }
    invoked := invoked
    dbModules := mods
    dbStatus := "completed" }

/-- `execute_scan` of main.py: the collectors of the requested category are
awaited one after another inside a single `try`; the first collector that
raises aborts the scan body into the `except` branch.  A `phone` scan
matches no branch of the `if`/`elif` chain and correlates nothing. -/
def execute_scan (env : CollectorEnv) (scan_id target : String)
    (scan_type : ScanType) (deep_scan : Bool) : ScanOutcome :=
  let base : ScanRecordM :=
    { scan_id := scan_id, target := target, scan_type := scan_type
      status := "running" }
  match scan_type with
  | .domain | .full =>
    match env.domainIntel target deep_scan with
    | .error _ => failOutcome base [("domain_intel", target)] []
    | .ok d =>
      let rec1 := { base with domain_intel := some d }
      match env.techStack target with
      | .error _ =>
        failOutcome rec1 [("domain_intel", target), ("tech_fingerprint", target)]
          ["domain_intel"]
      | .ok t =>
        let rec2 := { rec1 with tech_stack := some t }
        match env.githubIntel target deep_scan with
        | .error _ =>
          failOutcome rec2
            [("domain_intel", target), ("tech_fingerprint", target),
             ("github_intel", target)]
            ["domain_intel", "tech_fingerprint"]
        | .ok g =>
          completeOutcome { rec2 with github_intel := some g }
            [("domain_intel", target), ("tech_fingerprint", target),
             ("github_intel", target)]
            ["domain_intel", "tech_fingerprint", "github_intel"]
  | .email =>
    match env.emailIntel target with
    | .error _ => failOutcome base [("email_intel", target)] []
    | .ok e =>
      let rec1 := { base with email_intel := some e }
      match mailDomain target with
      | none => failOutcome rec1 [("email_intel", target)] ["email_intel"]
      | some dom =>
        match env.domainIntel dom false with
        | .error _ =>
          failOutcome rec1 [("email_intel", target), ("domain_intel", dom)]
            ["email_intel"]
        | .ok d =>
          completeOutcome { rec1 with domain_intel := some d }
            [("email_intel", target), ("domain_intel", dom)]
            ["email_intel", "domain_intel"]
  | .username =>
    match env.usernameIntel target with
    | .error _ => failOutcome base [("username_intel", target)] []
    | .ok u =>
      completeOutcome { base with username_intel := some u }
        [("username_intel", target)] ["username_intel"]
  | .phone => completeOutcome base [] []

/-- An environment in which every collector settles successfully with an
empty fragment. -/
def okEnv : CollectorEnv :=
  { domainIntel := fun s _ => .ok { domain := s }
    techStack := fun s => .ok { domain := s }
    githubIntel := fun s _ => .ok { target := s }
    emailIntel := fun s => .ok { email := s, valid_format := true }
    usernameIntel := fun s => .ok { username := s } }

/-- `okEnv` except that the technology-stack collector times out. -/
def techTimeoutEnv : CollectorEnv :=
  { okEnv with techStack := fun _ => .error "TimeoutError" }

/-- A syntactically invalid phone fragment. -/
def invalidPhone : PhoneIntelligence :=
  { phone := "12345", valid := false, line_type := some "voip" }

/-- A valid mobile phone fragment. -/
def validPhone : PhoneIntelligence :=
  { phone := "+14155550100"
    valid := true
    format_valid := true
    international_number := some "+1 415-555-0100"
    country := some "United States"
    carrier := some "ExampleTel"
    line_type := some "mobile" }

/-- A type-correct hunter fragment whose sole email dictionary holds the
key `value` with Python's `None`. -/
def noneValueHunter : HunterData :=
  { domain := "example.com", emails := [{ value := some none }] }

/-- A type-correct domain fragment whose (unbounded Python int) age makes
the division by 365 overflow the float range. -/
def overflowAgeDomain : DomainIntelligence :=
  { domain := "example.com"
    whois_data := some { domain := "example.com", domain_age_days := some (10 ^ 400) } }

/-- A hunter fragment whose email entry carries proper strings. -/
def safeHunter : HunterData :=
  { domain := "example.com"
    emails := [{ value := some (some "ceo@example.com"), position := some (some "CEO") }] }

/-- A domain fragment with an in-range age of 200 days. -/
def agedDomain : DomainIntelligence :=
  { domain := "example.com"
    whois_data := some { domain := "example.com", domain_age_days := some 200 }
    subdomain_count := 3 }

/-- The correlation of the empty fragment set for a fixed target. -/
def emptyCorrelation : CorrelatedIntelligence :=
  correlate_intelligence "example.com" none none none none none none none
    none none none none none none none none

/-- C1: for every combination of present and absent fragments, the risk
score returned by `calculate_risk_score` lies in [0,100] (as a `Nat` it is
nonnegative by type), and the returned risk level is derived from that
score exactly by the fixed thresholds: score at least 70 gives critical,
at least 50 high, at least 30 medium, and below 30 low. -/
theorem risk_score_bounds_and_thresholds
    (d : Option DomainIntelligence) (t : Option TechnologyStack)
    (g : Option GitHubIntelligence) (e : Option EmailIntelligence)
    (u : Option UsernameIntelligence) (sh : Option ShodanData)
    (vt : Option VirusTotalData) (hu : Option HunterData)
    (st : Option SecurityTrailsData) (us : Option URLScanData)
    (gn : Option GreyNoiseData) (sb : Option SafeBrowsingData)
    (gd : Option GoogleDorkingData) (ph : Option PhoneIntelligence) :
    (calculate_risk_score d t g e u sh vt hu st us gn sb gd ph).1 ≤ 100 ∧
    (calculate_risk_score d t g e u sh vt hu st us gn sb gd ph).2 =
      riskLevelOfScore (calculate_risk_score d t g e u sh vt hu st us gn sb gd ph).1 :=
  ⟨Nat.min_le_right _ _, rfl⟩

/-- C6: correlating with every fragment absent yields risk score 0, risk
level low, an empty attack surface, no key findings, and exactly the two
unconditional best-practice recommendation lines. -/
theorem empty_fragments_result (target : String) :
    correlate_intelligence target none none none none none none none none
      none none none none none none none =
    { target := target
      attack_surface := []
      risk_score := 0
      risk_level := RiskLevel.low
      key_findings := []
      recommendations :=
        ["📊 Regular OSINT audits recommended (quarterly)",
         "🔍 Implement continuous monitoring for new exposures"] } := rfl

/-- C7: a Safe Browsing fragment with `is_safe = false` and every other
fragment absent scores exactly 30, and 30 falls in the medium band because
the threshold comparison is inclusive. -/
theorem unsafe_url_alone_score_30_medium (sb : SafeBrowsingData)
    (h : sb.is_safe = false) :
    calculate_risk_score none none none none none none none none none none
      none (some sb) none none = (30, RiskLevel.medium) := by
  cases sb with
  | mk url tm safe =>
    simp only at h
    subst h
    rfl

/-- Witness for C7 at a concrete unsafe-URL fragment. -/
theorem unsafe_url_alone_score_30_medium_witness :
    calculate_risk_score none none none none none none none none none none
      none (some { url := "http://malware.example", is_safe := false })
      none none = (30, RiskLevel.medium) :=
  unsafe_url_alone_score_30_medium _ rfl

/-- Division by a nonzero denominator with an in-range quotient returns ok. -/
theorem pyTrueDivE_ok (a b : Int) (hb : b ≠ 0)
    (hov : a.natAbs < b.natAbs * 2 ^ 1024) :
    pyTrueDivE a b = .ok (pyTrueDiv a b) := by
  simp [pyTrueDivE, hb, Nat.not_le.mpr hov]

/-- The age line divides by the literal 365 and returns ok whenever the
age value keeps the quotient inside float range. -/
theorem ageLineE_ok (w : Option WHOISData) (hs : ageDivisionSafeW w = true) :
    ageLineE w = .ok (ageLine w) := by
  cases w with
  | none => rfl
  | some wd =>
    simp only [ageDivisionSafeW] at hs
    cases h : wd.domain_age_days with
    | none =>
      simp only [ageLineE, ageLine, h]
      rfl
    | some age =>
      rw [h] at hs
      by_cases hz : (age == 0) = true
      · simp only [ageLineE, ageLine, h, hz, if_pos]
        rfl
      · have hlt : age.natAbs < 365 * 2 ^ 1024 :=
          of_decide_eq_true ((Bool.or_eq_true _ _).mp hs |>.resolve_left hz)
        simp [ageLineE, ageLine, h, hz, pyTrueDivE_ok age 365 (by decide) hlt]

/-- The domain findings stage returns ok for in-range age values. -/
theorem domainFindingsE_ok (d : Option DomainIntelligence)
    (hs : ageDivisionSafe d = true) :
    domainFindingsE d = .ok (domainFindings d) := by
  cases d with
  | none => rfl
  | some di =>
    simp only [ageDivisionSafe] at hs
    simp [domainFindingsE, domainFindings, ageLineE_ok di.whois_data hs]

/-- The findings stage as a whole returns ok for in-range age values. -/
theorem generate_key_findingsE_ok
    (d : Option DomainIntelligence) (t : Option TechnologyStack)
    (g : Option GitHubIntelligence) (e : Option EmailIntelligence)
    (u : Option UsernameIntelligence) (ph : Option PhoneIntelligence)
    (hs : ageDivisionSafe d = true) :
    generate_key_findingsE d t g e u ph =
      .ok (generate_key_findings d t g e u ph) := by
  simp [generate_key_findingsE, generate_key_findings, domainFindingsE_ok d hs]

/-- A hunter email entry whose `value` key validates projects its item. -/
theorem hunterItemE_ok (e : HunterEmail) (hs : hunterEmailNameSafe e = true) :
    hunterItemE e = .ok (hunterItem e) := by
  cases hv : e.value with
  | none => simp [hunterItemE, hunterItem, pyDictGet, pyStr, hv]
  | some v =>
    cases v with
    | none =>
      rw [hunterEmailNameSafe, hv] at hs
      simp at hs
    | some s => simp [hunterItemE, hunterItem, pyDictGet, pyStr, hv]

/-- Traversing only safe entries returns ok of the mapped items. -/
theorem hunterItemsE_ok (l : List HunterEmail)
    (hs : l.all hunterEmailNameSafe = true) :
    hunterItemsE l = .ok (l.map hunterItem) := by
  induction l with
  | nil => rfl
  | cons e es ih =>
    rw [List.all_cons, Bool.and_eq_true] at hs
    simp only [hunterItemsE, hunterItemE_ok e hs.1, ih hs.2]
    rfl

/-- The hunter projection returns ok when its first five entries are safe. -/
theorem hunterSurfaceItemsE_ok (hu : Option HunterData)
    (hs : hunterValuesSafe hu = true) :
    hunterSurfaceItemsE hu = .ok (hunterSurfaceItems hu) := by
  cases hu with
  | none => rfl
  | some hd =>
    simp only [hunterValuesSafe] at hs
    simpa [hunterSurfaceItemsE, hunterSurfaceItems] using
      hunterItemsE_ok (hd.emails.take 5) hs

/-- The attack-surface stage returns ok when the hunter entries are safe. -/
theorem build_attack_surfaceE_ok
    (d : Option DomainIntelligence) (t : Option TechnologyStack)
    (g : Option GitHubIntelligence) (sh : Option ShodanData)
    (vt : Option VirusTotalData) (hu : Option HunterData)
    (gd : Option GoogleDorkingData) (ph : Option PhoneIntelligence)
    (hs : hunterValuesSafe hu = true) :
    build_attack_surfaceE d t g sh vt hu gd ph =
      .ok (build_attack_surface d t g sh vt hu gd ph) := by
  simp [build_attack_surfaceE, build_attack_surface, attackSurfaceProjections,
    hunterSurfaceItemsE_ok hu hs]

/-- C2 counterexample: the Correlation Engine can raise on type-correct
fragments.  A hunter email dictionary whose `value` key holds `None` makes
`build_attack_surface` raise a pydantic `ValidationError`, and an
unbounded-int domain age of 10^400 makes the findings stage's division by
365 raise `OverflowError`. -/
theorem correlator_raise_counterexample :
    correlate_intelligenceE "example.com" none none none none none none none
        (some noneValueHunter) none none none none none none none =
      .error "ValidationError: none is not an allowed value for AttackSurfaceItem.name" ∧
    correlate_intelligenceE "example.com" (some overflowAgeDomain) none none
        none none none none none none none none none none none none =
      .error "OverflowError: integer division result too large for a float" :=
  ⟨rfl, rfl⟩

/-- C2 (amended): the Correlation Engine terminates normally on every
well-formed fragment set whose present domain-age value keeps the division
by 365 inside float range and whose projected hunter email entries carry a
validating `value` key: under exactly these conditions — which the
counterexample shows cannot be dropped — the exception-explicit embedding
returns `ok` of the pure result. -/
theorem correlator_never_raises_on_safe_inputs
    (target : String)
    (d : Option DomainIntelligence) (t : Option TechnologyStack)
    (g : Option GitHubIntelligence) (e : Option EmailIntelligence)
    (u : Option UsernameIntelligence) (sh : Option ShodanData)
    (vt : Option VirusTotalData) (hu : Option HunterData)
    (st : Option SecurityTrailsData) (us : Option URLScanData)
    (gn : Option GreyNoiseData) (sb : Option SafeBrowsingData)
    (ab : Option AbstractData) (gd : Option GoogleDorkingData)
    (ph : Option PhoneIntelligence)
    (hAge : ageDivisionSafe d = true)
    (hHunter : hunterValuesSafe hu = true) :
    correlate_intelligenceE target d t g e u sh vt hu st us gn sb ab gd ph =
      .ok (correlate_intelligence target d t g e u sh vt hu st us gn sb ab gd ph) := by
  simp only [correlate_intelligenceE, correlate_intelligence,
    build_attack_surfaceE_ok d t g sh vt hu gd ph hHunter,
    generate_key_findingsE_ok d t g e u ph hAge]
  rfl

/-- Witness for the amended C2 at a concrete aged domain and a concrete
well-formed hunter fragment. -/
theorem correlator_never_raises_on_safe_inputs_witness :
    correlate_intelligenceE "example.com" (some agedDomain) none none none
        none none none (some safeHunter) none none none none none none none =
      .ok (correlate_intelligence "example.com" (some agedDomain) none none
        none none none none (some safeHunter) none none none none none none
        none) :=
  correlator_never_raises_on_safe_inputs "example.com" (some agedDomain) none
    none none none none none (some safeHunter) none none none none none none
    none (by decide) (by decide)

/-- C4: the Correlation Engine is deterministic and idempotent: two results
produced from identical arguments agree on risk score, risk level, attack
surface, key findings, and recommendations (in order). -/
theorem correlator_deterministic
    (target : String)
    (d : Option DomainIntelligence) (t : Option TechnologyStack)
    (g : Option GitHubIntelligence) (e : Option EmailIntelligence)
    (u : Option UsernameIntelligence) (sh : Option ShodanData)
    (vt : Option VirusTotalData) (hu : Option HunterData)
    (st : Option SecurityTrailsData) (us : Option URLScanData)
    (gn : Option GreyNoiseData) (sb : Option SafeBrowsingData)
    (ab : Option AbstractData) (gd : Option GoogleDorkingData)
    (ph : Option PhoneIntelligence)
    (r₁ r₂ : CorrelatedIntelligence)
    (h₁ : r₁ = correlate_intelligence target d t g e u sh vt hu st us gn sb ab gd ph)
    (h₂ : r₂ = correlate_intelligence target d t g e u sh vt hu st us gn sb ab gd ph) :
    r₁.risk_score = r₂.risk_score ∧ r₁.risk_level = r₂.risk_level ∧
    r₁.attack_surface = r₂.attack_surface ∧
    r₁.key_findings = r₂.key_findings ∧
    r₁.recommendations = r₂.recommendations := by
  subst h₁
  subst h₂
  exact ⟨rfl, rfl, rfl, rfl, rfl⟩

/-- Witness for C4: two invocations on the empty fragment set agree. -/
theorem correlator_deterministic_witness :
    emptyCorrelation.risk_score = emptyCorrelation.risk_score ∧
    emptyCorrelation.risk_level = emptyCorrelation.risk_level ∧
    emptyCorrelation.attack_surface = emptyCorrelation.attack_surface ∧
    emptyCorrelation.key_findings = emptyCorrelation.key_findings ∧
    emptyCorrelation.recommendations = emptyCorrelation.recommendations :=
  correlator_deterministic "example.com" none none none none none none none
    none none none none none none none none emptyCorrelation emptyCorrelation
    rfl rfl

/-- The GreyNoise branch of the scorer is a `pass`: it contributes zero. -/
theorem greynoisePoints_zero (gn : Option GreyNoiseData) :
    greynoisePoints gn = 0 := by
  cases gn with
  | none => rfl
  | some g => simp [greynoisePoints]

/-- C9: the SecurityTrails, URLScan, GreyNoise, and Abstract enrichment
fragments never influence the output: replacing any of the four by any
other values (present or absent) leaves the correlation unchanged. -/
theorem passive_enrichment_ignored
    (target : String)
    (d : Option DomainIntelligence) (t : Option TechnologyStack)
    (g : Option GitHubIntelligence) (e : Option EmailIntelligence)
    (u : Option UsernameIntelligence) (sh : Option ShodanData)
    (vt : Option VirusTotalData) (hu : Option HunterData)
    (sb : Option SafeBrowsingData) (gd : Option GoogleDorkingData)
    (ph : Option PhoneIntelligence)
    (st st' : Option SecurityTrailsData) (us us' : Option URLScanData)
    (gn gn' : Option GreyNoiseData) (ab ab' : Option AbstractData) :
    correlate_intelligence target d t g e u sh vt hu st us gn sb ab gd ph =
      correlate_intelligence target d t g e u sh vt hu st' us' gn' sb ab' gd ph := by
  simp [correlate_intelligence, calculate_risk_score, greynoisePoints_zero]

/-- Inserting an item into a list commutes with filtering at a fixed risk
key: the inserted item lands in front of every retained item of its own
key, because `orderedInsert` skips only items with a strictly smaller key. -/
theorem filter_orderedInsert_key (k : Nat) (x : AttackSurfaceItem)
    (l : List AttackSurfaceItem) :
    (List.orderedInsert riskLE x l).filter
        (fun i => riskOrder i.risk_level == k) =
      if riskOrder x.risk_level == k then
        x :: l.filter (fun i => riskOrder i.risk_level == k)
      else l.filter (fun i => riskOrder i.risk_level == k) := by
  induction l with
  | nil =>
    by_cases hx : (riskOrder x.risk_level == k) = true <;>
      simp [List.orderedInsert, List.filter, hx]
  | cons y ys ih =>
    rw [List.orderedInsert]
    by_cases hxy : riskLE x y
    · rw [if_pos hxy]
      by_cases hx : (riskOrder x.risk_level == k) = true <;>
        simp [List.filter, hx]
    · rw [if_neg hxy]
      by_cases hx : (riskOrder x.risk_level == k) = true
      · have hkx : riskOrder x.risk_level = k := beq_iff_eq.mp hx
        have hy : ¬(riskOrder y.risk_level == k) = true := by
          intro hyk
          exact hxy (le_of_eq (hkx.trans (beq_iff_eq.mp hyk).symm))
        simp [List.filter, hx, hy, ih]
      · by_cases hy : (riskOrder y.risk_level == k) = true <;>
          simp [List.filter, hx, hy, ih]

/-- Filtering at a fixed risk key is invariant under the stable sort. -/
theorem filter_insertionSort_key (k : Nat) (l : List AttackSurfaceItem) :
    (List.insertionSort riskLE l).filter
        (fun i => riskOrder i.risk_level == k) =
      l.filter (fun i => riskOrder i.risk_level == k) := by
  induction l with
  | nil => rfl
  | cons x xs ih =>
    rw [List.insertionSort, filter_orderedInsert_key]
    by_cases hx : (riskOrder x.risk_level == k) = true <;>
      simp [List.filter, hx, ih]

/-- C5: the attack surface is sorted by risk level descending (ascending in
the `riskOrder` key, critical first), and the sort is stable: restricting
the output to any one risk key gives exactly the fragment-projection-order
sublist of that key. -/
theorem attack_surface_sorted_stable
    (d : Option DomainIntelligence) (t : Option TechnologyStack)
    (g : Option GitHubIntelligence) (sh : Option ShodanData)
    (vt : Option VirusTotalData) (hu : Option HunterData)
    (gd : Option GoogleDorkingData) (ph : Option PhoneIntelligence) :
    List.Sorted riskLE (build_attack_surface d t g sh vt hu gd ph) ∧
    ∀ k : Nat,
      (build_attack_surface d t g sh vt hu gd ph).filter
          (fun i => riskOrder i.risk_level == k) =
        (attackSurfaceProjections d t g sh hu gd ph).filter
          (fun i => riskOrder i.risk_level == k) :=
  ⟨List.sorted_insertionSort riskLE _, fun k => filter_insertionSort_key k _⟩

/-- Splitting a separator-free list yields the list itself as sole part. -/
theorem splitChar_not_mem (c : Char) (r : List Char) (h : c ∉ r) :
    splitChar c r = [r] := by
  induction r with
  | nil => rfl
  | cons x xs ih =>
    have hx : ¬ x = c := by
      intro e
      subst e
      exact h (List.mem_cons_self x xs)
    have hxs : c ∉ xs := fun hc => h (List.mem_cons_of_mem _ hc)
    simp [splitChar, hx, ih hxs]

/-- Splitting at the first separator occurrence peels off the prefix. -/
theorem splitChar_append (c : Char) (l r : List Char) (hl : c ∉ l) :
    splitChar c (l ++ c :: r) = l :: splitChar c r := by
  induction l with
  | nil => simp [splitChar]
  | cons x xs ih =>
    have hx : ¬ x = c := by
      intro e
      subst e
      exact hl (List.mem_cons_self x xs)
    have hxs : c ∉ xs := fun hc => hl (List.mem_cons_of_mem _ hc)
    simp [splitChar, hx, ih hxs]

/-- For a target with exactly one `@`, `split('@')[1]` is the part after it. -/
theorem mailDomain_of_split (target : String) (l r : List Char)
    (ht : target.toList = l ++ '@' :: r) (hl : '@' ∉ l) (hr : '@' ∉ r) :
    mailDomain target = some (String.mk r) := by
  unfold mailDomain
  rw [ht, splitChar_append _ _ _ hl, splitChar_not_mem _ _ hr]
  rfl

/-- C8: when every collector settles successfully, the collectors invoked
by `execute_scan` are exactly determined by the scan category: domain and
full invoke the domain, technology-stack, and code-exposure collectors on
the target; username invokes only the username collector; email invokes
the email collector on the target plus the domain collector on the part of
the target after the `@` (targets reach this code only after email-format
validation, hence with exactly one `@`). -/
theorem dispatch_sets_by_category
    (env : CollectorEnv) (scan_id target : String) (deep : Bool)
    (hD : ∀ s b, ∃ v, env.domainIntel s b = .ok v)
    (hT : ∀ s, ∃ v, env.techStack s = .ok v)
    (hG : ∀ s b, ∃ v, env.githubIntel s b = .ok v)
    (hE : ∀ s, ∃ v, env.emailIntel s = .ok v)
    (hU : ∀ s, ∃ v, env.usernameIntel s = .ok v) :
    (execute_scan env scan_id target .domain deep).invoked =
      [("domain_intel", target), ("tech_fingerprint", target),
       ("github_intel", target)] ∧
    (execute_scan env scan_id target .full deep).invoked =
      [("domain_intel", target), ("tech_fingerprint", target),
       ("github_intel", target)] ∧
    (execute_scan env scan_id target .username deep).invoked =
      [("username_intel", target)] ∧
    ∀ l r : List Char, target.toList = l ++ '@' :: r → '@' ∉ l → '@' ∉ r →
      (execute_scan env scan_id target .email deep).invoked =
        [("email_intel", target), ("domain_intel", String.mk r)] := by
  obtain ⟨dv, hdv⟩ := hD target deep
  obtain ⟨tv, htv⟩ := hT target
  obtain ⟨gv, hgv⟩ := hG target deep
  obtain ⟨ev, hev⟩ := hE target
  obtain ⟨uv, huv⟩ := hU target
  refine ⟨?_, ?_, ?_, ?_⟩
  · simp [execute_scan, hdv, htv, hgv, completeOutcome]
  · simp [execute_scan, hdv, htv, hgv, completeOutcome]
  · simp [execute_scan, huv, completeOutcome]
  · intro l r ht hl hr
    obtain ⟨dv2, hdv2⟩ := hD (String.mk r) false
    simp [execute_scan, hev, mailDomain_of_split target l r ht hl hr, hdv2,
      completeOutcome]

/-- Witness for C8: all-successful collectors, an email scan of
user@example.com and a domain scan of example.com. -/
theorem dispatch_sets_by_category_witness :
    (execute_scan okEnv "scan1" "user@example.com" .email false).invoked =
      [("email_intel", "user@example.com"), ("domain_intel", "example.com")] ∧
    (execute_scan okEnv "scan1" "example.com" .domain false).invoked =
      [("domain_intel", "example.com"), ("tech_fingerprint", "example.com"),
       ("github_intel", "example.com")] := by
  have hmail := dispatch_sets_by_category okEnv "scan1" "user@example.com" false
    (fun s b => ⟨_, rfl⟩) (fun s => ⟨_, rfl⟩) (fun s b => ⟨_, rfl⟩)
    (fun s => ⟨_, rfl⟩) (fun s => ⟨_, rfl⟩)
  have hdom := dispatch_sets_by_category okEnv "scan1" "example.com" false
    (fun s b => ⟨_, rfl⟩) (fun s => ⟨_, rfl⟩) (fun s b => ⟨_, rfl⟩)
    (fun s => ⟨_, rfl⟩) (fun s => ⟨_, rfl⟩)
  refine ⟨?_, hdom.1⟩
  have he := hmail.2.2.2 "user".toList "example.com".toList (by decide)
    (by decide) (by decide)
  exact he

/-- C3 evaluation: in a domain scan whose technology-stack collector times
out while the others would succeed, `execute_scan` aborts into its single
scan-level `except` branch: the scan status is "failed", not "completed",
no correlation is produced, the remaining collector is never invoked, and
the persistence layer is offered a failed status.  The cached record keeps
the domain fragment gathered before the failure. -/
theorem collector_timeout_fails_whole_scan :
    (execute_scan techTimeoutEnv "scan1" "example.com" .domain false).record.status
        = "failed" ∧
    (execute_scan techTimeoutEnv "scan1" "example.com" .domain false).record.correlated_intel
        = none ∧
    (execute_scan techTimeoutEnv "scan1" "example.com" .domain false).invoked
        = [("domain_intel", "example.com"), ("tech_fingerprint", "example.com")] ∧
    (execute_scan techTimeoutEnv "scan1" "example.com" .domain false).dbStatus
        = "failed" ∧
    (execute_scan techTimeoutEnv "scan1" "example.com" .domain false).record.domain_intel
        = some { domain := "example.com" } :=
  ⟨rfl, rfl, rfl, rfl, rfl⟩

/-- C10: an invalid phone fragment contributes 5 risk points (plus 3 when
its line type is "voip") yet projects no attack-surface item and no
finding line — the attack surface and findings equal those with the phone
fragment absent; a valid phone fragment projects its attack-surface item
and contributes at least one finding line. -/
theorem invalid_phone_scored_not_projected
    (d : Option DomainIntelligence) (t : Option TechnologyStack)
    (g : Option GitHubIntelligence) (sh : Option ShodanData)
    (vt : Option VirusTotalData) (hu : Option HunterData)
    (gd : Option GoogleDorkingData) (e : Option EmailIntelligence)
    (u : Option UsernameIntelligence) (p : PhoneIntelligence) :
    (p.valid = false →
      phonePoints (some p) =
        5 + (if p.line_type == some "voip" then 3 else 0) ∧
      build_attack_surface d t g sh vt hu gd (some p) =
        build_attack_surface d t g sh vt hu gd none ∧
      generate_key_findings d t g e u (some p) =
        generate_key_findings d t g e u none) ∧
    (p.valid = true →
      phoneAttackItem p ∈ build_attack_surface d t g sh vt hu gd (some p) ∧
      generate_key_findings d t g e u (some p) =
        generate_key_findings d t g e u none ++ phoneFindingLines p ∧
      phoneFindingLines p ≠ []) := by
  constructor
  · intro hv
    refine ⟨?_, ?_, ?_⟩
    · simp [phonePoints, hv]
    · simp [build_attack_surface, attackSurfaceProjections, phoneSurfaceItems, hv]
    · simp [generate_key_findings, phoneFindings, hv]
  · intro hv
    refine ⟨?_, ?_, ?_⟩
    · have hperm :=
        List.perm_insertionSort riskLE
          (attackSurfaceProjections d t g sh hu gd (some p))
      refine hperm.mem_iff.mpr ?_
      simp [attackSurfaceProjections, phoneSurfaceItems, hv]
    · simp [generate_key_findings, phoneFindings, hv]
    · simp [phoneFindingLines]

/-- Witness for C10 at a concrete invalid and a concrete valid phone. -/
theorem invalid_phone_scored_not_projected_witness :
    build_attack_surface none none none none none none none (some invalidPhone) =
      build_attack_surface none none none none none none none none ∧
    phoneAttackItem validPhone ∈
      build_attack_surface none none none none none none none (some validPhone) :=
  ⟨((invalid_phone_scored_not_projected none none none none none none none
      none none invalidPhone).1 rfl).2.1,
   ((invalid_phone_scored_not_projected none none none none none none none
      none none validPhone).2 rfl).1⟩

end OSINT
